import Mathlib

/-!
# Verification of the GitHub community-health data-collection pipeline

A shallow embedding of `src/index.js` (the final collection script) together
with proofs about its behaviour.  Numbers produced by JavaScript coercions are
modelled by `JsNum` (an integer or NaN); a repository record is a structure of
optional fields, where `none` models an absent object key (the script tests key
presence with `hasOwnProperty`) and `some v` a present key holding `v`.  Network
interactions are modelled by per-record outcome oracles: each collector step is
a pure function of the record and the outcome the network would have produced,
returning the updated record together with the number of requests issued, or
`thrown` when the JavaScript code would propagate an exception.
-/

/-- A JavaScript number as produced by the script's unary-plus coercions:
either an integer value or NaN (e.g. `+"5,000+"`). -/
inductive JsNum where
  | num (n : Int)
  | nan
deriving DecidableEq

/-- JavaScript truthiness of a possibly-absent numeric field:
`undefined`, `0` and `NaN` are falsy, every other number is truthy.
Used by the invalid-record filter `repos.filter(repo => repo.contributor_count)`. -/
def jsTruthyNum : Option JsNum → Bool
  | none => false
  | some .nan => false
  | some (.num n) => n != 0

/-- Addition of JavaScript numbers (NaN propagates), as in
`openMilestonesCount + closedMilestonesCount`. -/
def jsAdd : JsNum → JsNum → JsNum
  | .num a, .num b => .num (a + b)
  | _, _ => .nan

/-- A repository record (one element of the script's `listOfRepos`).  Identity
and discovery fields are plain values; every collected attribute is an `Option`
so that `none` models "object key absent" and `some v` models "key present with
value `v`" -- exactly the distinction `hasOwnProperty` tests in the source. -/
structure Repo where
  owner : String := ""
  repo : String := ""
  default_branch : String := ""
  contributor_count : Option JsNum := none
  readme_size : Option JsNum := none
  rawReadmeUrl : Option String := none
  has_code_of_conduct : Option Bool := none
  has_contributing : Option Bool := none
  has_issue_template : Option Bool := none
  has_pull_request_template : Option Bool := none
  languages : Option (List (String × Nat)) := none
  environments : Option (List String) := none
  has_deployments : Option Bool := none
  has_releases : Option Bool := none
  workflows_count : Option Int := none
  labels_count : Option JsNum := none
  milestones_count : Option JsNum := none
  has_security_file : Option Bool := none
  has_support_file : Option Bool := none
  has_funding_file : Option Bool := none
  has_codeowners : Option Bool := none
  has_changelog : Option Bool := none
  has_codespaces : Option Bool := none
  has_discussions : Option Bool := none
  uses_dependabot : Option Bool := none
deriving DecidableEq

/-- Outcome of one candidate's `HEAD` check inside `doesAnyFileExist`:
the fetch completed with some HTTP status, or both fetch attempts of
`fetchWithRetryAndLogging` rejected (a network error, which is neither a
found nor a 404 outcome). -/
inductive ProbeOutcome where
  | status (s : Nat)
  | netError
deriving DecidableEq

/-- Whether a candidate outcome fulfils the probe's promise
(`if (response.status === 200) return true`). -/
def probeFound : ProbeOutcome → Bool
  | .status s => s == 200
  | .netError => false

/-- Whether a candidate outcome is the tolerated not-found rejection
(`aggregateError.errors.every(e => e === 404)`). -/
def probeIs404 : ProbeOutcome → Bool
  | .status s => s == 404
  | .netError => false

/-- `doesAnyFileExist` (src/index.js lines 379-396).  `Promise.any` fulfils
with `true` as soon as any candidate's check returns status 200, regardless of
completion order; if every candidate rejects, the aggregate of rejections is
inspected: all-404 resolves `false`, anything else (other statuses or network
errors) is rethrown.  Modelled denotationally over the multiset of candidate
outcomes: the result is `true` iff some outcome is a 200, `false` iff all
outcomes are 404 rejections, and an error otherwise. -/
def doesAnyFileExist (outcomes : List ProbeOutcome) : Except (List ProbeOutcome) Bool :=
  if outcomes.any probeFound then .ok true
  else if outcomes.all probeIs404 then .ok false
  else .error outcomes

/-- Result of processing one record inside a collector's `for` loop:
either the (possibly updated) record plus the number of network requests
issued for it, or a propagated exception (every collector assigns attributes
only after its fallible call has succeeded, so at a throw the record is
unchanged and the enclosing loop aborts). -/
inductive StepResult (α : Type) where
  | ok (r : α) (requests : Nat)
  | thrown (requests : Nat)
deriving DecidableEq

/-- Outcome of fetching `https://www.github.com/{owner}/{repo}` for one record
in `getContributorCounts`: the landed page's status together with the parsed
contributors-sidebar figure (`+$(...).html().trim()`) when the sidebar anchor
exists, or a network error (`fetchWithRetryAndLogging` rejecting twice). -/
inductive ContribOutcome where
  | page (status : Nat) (sidebar : Option JsNum)
  | netError
deriving DecidableEq

/-- Per-record body of `getContributorCounts` (src/index.js lines 98-115):
skip when `contributor_count` is already a key; throw on a non-200 status;
otherwise store the parsed sidebar figure, or `1` when the sidebar anchor is
absent (`.html()` is `null`, `.trim()` throws, the `catch` assigns 1). -/
def getContributorCountsStep (o : ContribOutcome) (r : Repo) : StepResult Repo :=
  if r.contributor_count.isSome then .ok r 0
  else match o with
    | .netError => .thrown 1
    | .page status sidebar =>
      if status != 200 then .thrown 1
      else match sidebar with
        | some v => .ok { r with contributor_count := some v } 1
        | none => .ok { r with contributor_count := some (.num 1) } 1

/-- Outcome of the `HEAD` request to `repo.rawReadmeUrl` in `getReadmeLengths`:
a status plus the coerced `content-length` header (`+null` is `0` when the
header is missing), or a network error. -/
inductive ReadmeOutcome where
  | head (status : Nat) (contentLength : JsNum)
  | netError
deriving DecidableEq

/-- Per-record body of `getReadmeLengths` (src/index.js lines 117-130): skip
when `readme_size` is already a key; any throw inside the `try` (network error
or non-200 status) is caught and records size 0; a 200 stores the coerced
`content-length`. -/
def getReadmeLengthsStep (o : ReadmeOutcome) (r : Repo) : StepResult Repo :=
  if r.readme_size.isSome then .ok r 0
  else match o with
    | .netError => .ok { r with readme_size := some (.num 0) } 1
    | .head status len =>
      if status != 200 then .ok { r with readme_size := some (.num 0) } 1
      else .ok { r with readme_size := some len } 1

/-- The `data.files` bundle returned by the community-profile endpoint:
presence booleans for the tracked files plus the README's `html_url` when a
README exists. -/
structure CommunityFiles where
  code_of_conduct : Bool := false
  code_of_conduct_file : Bool := false
  contributing : Bool := false
  issue_template : Bool := false
  pull_request_template : Bool := false
  readme_html_url : Option String := none
deriving DecidableEq

/-- Outcome of the `getCommunityProfileMetrics` API call for one record. -/
inductive CommunityOutcome where
  | success (files : CommunityFiles)
  | apiError
deriving DecidableEq

/-- Per-record body of `getCommunityProfileMetrics` (src/index.js lines
132-153): skip when `has_code_of_conduct` is already a key; on success set the
four template/profile booleans, then either derive `rawReadmeUrl` from the
README's `html_url` (`split('blob')[1]`, the JavaScript `undefined` hole
rendering as the string "undefined" inside the template literal) or record
`readme_size = 0` when no README exists.  An API error propagates. -/
def getCommunityProfileMetricsStep (o : CommunityOutcome) (r : Repo) : StepResult Repo :=
  if r.has_code_of_conduct.isSome then .ok r 0
  else match o with
    | .apiError => .thrown 1
    | .success files =>
      let r1 := { r with
        has_code_of_conduct := some (files.code_of_conduct || files.code_of_conduct_file)
        has_contributing := some files.contributing
        has_issue_template := some files.issue_template
        has_pull_request_template := some files.pull_request_template }
      match files.readme_html_url with
      | some u =>
        .ok { r1 with rawReadmeUrl := some ("https://raw.githubusercontent.com/"
          ++ r.owner ++ "/" ++ r.repo ++ ((u.splitOn "blob").getD 1 "undefined")) } 1
      | none => .ok { r1 with readme_size := some (.num 0) } 1

/-- Outcome of the `listLanguages` API call for one record. -/
inductive LanguagesOutcome where
  | success (data : List (String × Nat))
  | apiError
deriving DecidableEq

/-- Per-record body of `getLanguages` (src/index.js lines 155-166): skip when
`languages` is already a key; store the byte-count mapping on success; there is
no `catch`, so an API error propagates. -/
def getLanguagesStep (o : LanguagesOutcome) (r : Repo) : StepResult Repo :=
  if r.languages.isSome then .ok r 0
  else match o with
    | .apiError => .thrown 1
    | .success d => .ok { r with languages := some d } 1

/-- Outcome of the paginated `getAllEnvironments` API call for one record. -/
inductive EnvironmentsOutcome where
  | success (names : List String)
  | apiError
deriving DecidableEq

/-- Per-record body of `getEnvironments` (src/index.js lines 194-213): skip
when `environments` is already a key; store the environment names on success;
the catch-all turns ANY error into an empty list. -/
def getEnvironmentsStep (o : EnvironmentsOutcome) (r : Repo) : StepResult Repo :=
  if r.environments.isSome then .ok r 0
  else match o with
    | .success names => .ok { r with environments := some names } 1
    | .apiError => .ok { r with environments := some [] } 1

/-- Outcome of the `listDeployments` API call (per_page = 1) for one record:
the returned page's length, or an error optionally carrying an HTTP status. -/
inductive DeploymentsOutcome where
  | success (count : Nat)
  | apiError (status : Option Nat)
deriving DecidableEq

/-- Per-record body of `getDeployments` (src/index.js lines 168-192): skip when
`has_deployments` is already a key; when `environments` is present and empty
set `has_deployments = false` without any API call; otherwise query the API:
success stores whether the page is non-empty, a 502 error is treated as
evidence of (many) deployments, and any other error leaves the key absent. -/
def getDeploymentsStep (o : DeploymentsOutcome) (r : Repo) : StepResult Repo :=
  if r.has_deployments.isSome then .ok r 0
  else if r.environments == some [] then .ok { r with has_deployments := some false } 0
  else match o with
    | .success n => .ok { r with has_deployments := some (decide (n > 0)) } 1
    | .apiError st =>
      if st == some 502 then .ok { r with has_deployments := some true } 1
      else .ok r 1

/-- Outcome of the `HEAD` request to `releases/latest` in `getReleases`:
the status plus the URL landed on after redirects, or a network error. -/
inductive ReleasesOutcome where
  | head (status : Nat) (landedUrl : String)
  | netError
deriving DecidableEq

/-- The releases listing URL for a record (src/index.js line 220). -/
def releasesUrl (r : Repo) : String :=
  "https://github.com/" ++ r.owner ++ "/" ++ r.repo ++ "/releases"

/-- Per-record body of `getReleases` (src/index.js lines 215-228): skip when
`has_releases` is already a key; throw on network error or non-200; otherwise
a repository has releases iff the redirect landed somewhere other than the
plain releases listing. -/
def getReleasesStep (o : ReleasesOutcome) (r : Repo) : StepResult Repo :=
  if r.has_releases.isSome then .ok r 0
  else match o with
    | .netError => .thrown 1
    | .head status landedUrl =>
      if status != 200 then .thrown 1
      else .ok { r with has_releases := some (landedUrl != releasesUrl r) } 1

/-- Outcome of fetching the workflow-directory listing page in `getWorkflows`:
the status plus the number of scraped rows, or a network error. -/
inductive WorkflowsOutcome where
  | page (status : Nat) (rows : Nat)
  | netError
deriving DecidableEq

/-- Per-record body of `getWorkflows` (src/index.js lines 230-251): skip when
`workflows_count` is already a key; 404 means no workflow directory (count 0);
any other non-200 throws; on 200 a non-zero row count is corrected by -2 for
the header and dots rows, zero rows means count 0. -/
def getWorkflowsStep (o : WorkflowsOutcome) (r : Repo) : StepResult Repo :=
  if r.workflows_count.isSome then .ok r 0
  else match o with
    | .netError => .thrown 1
    | .page status rows =>
      if status == 404 then .ok { r with workflows_count := some 0 } 1
      else if status != 200 then .thrown 1
      else if rows != 0 then .ok { r with workflows_count := some ((rows : Int) - 2) } 1
      else .ok { r with workflows_count := some 0 } 1

/-- Outcome of fetching the labels page in `getIssueLabelsCount`: the status
plus the coerced `.js-labels-count` text, or a network error. -/
inductive LabelsOutcome where
  | page (status : Nat) (labelsText : JsNum)
  | netError
deriving DecidableEq

/-- Per-record body of `getIssueLabelsCount` (src/index.js lines 253-265): skip
when `labels_count` is already a key; throw on network error or non-200;
otherwise store the coerced scraped count. -/
def getIssueLabelsCountStep (o : LabelsOutcome) (r : Repo) : StepResult Repo :=
  if r.labels_count.isSome then .ok r 0
  else match o with
    | .netError => .thrown 1
    | .page status c =>
      if status != 200 then .thrown 1
      else .ok { r with labels_count := some c } 1

/-- Outcome of fetching the milestones page in `getMilestones`: the status plus
the coerced open and closed figures, or a network error. -/
inductive MilestonesOutcome where
  | page (status : Nat) (openCount closedCount : JsNum)
  | netError
deriving DecidableEq

/-- Per-record body of `getMilestones` (src/index.js lines 267-285): skip when
`milestones_count` is already a key; 404 means no milestones (count 0); any
other non-200 throws; on 200 the open and closed scraped figures are added
(JavaScript addition, so NaN propagates). -/
def getMilestonesStep (o : MilestonesOutcome) (r : Repo) : StepResult Repo :=
  if r.milestones_count.isSome then .ok r 0
  else match o with
    | .netError => .thrown 1
    | .page status op cl =>
      if status == 404 then .ok { r with milestones_count := some (.num 0) } 1
      else if status != 200 then .thrown 1
      else .ok { r with milestones_count := some (jsAdd op cl) } 1

/-- Common shape of the presence-style collectors (`getSecurityFiles`,
`getSupportFiles`, `getFundingFiles`, `getCodeowners`, `getChangelog`,
`getCodespaces`, `getDiscussions`, `getDependabot`): skip when the target
attribute is already a key, otherwise run the Existence Probe over the
candidate URLs' outcomes and store the boolean; an aggregate probe failure
propagates.  `get`/`set` select the collector's target attribute. -/
def probeCollectorStep (get : Repo → Option Bool) (set : Repo → Bool → Repo)
    (outcomes : List ProbeOutcome) (r : Repo) : StepResult Repo :=
  if (get r).isSome then .ok r 0
  else match doesAnyFileExist outcomes with
    | .ok b => .ok (set r b) outcomes.length
    | .error _ => .thrown outcomes.length

/-- Per-record body of `getSecurityFiles` (src/index.js lines 287-308). -/
def getSecurityFilesStep : List ProbeOutcome → Repo → StepResult Repo :=
  probeCollectorStep (fun r => r.has_security_file)
    (fun r b => { r with has_security_file := some b })

/-- Per-record body of `getSupportFiles` (src/index.js lines 310-331). -/
def getSupportFilesStep : List ProbeOutcome → Repo → StepResult Repo :=
  probeCollectorStep (fun r => r.has_support_file)
    (fun r b => { r with has_support_file := some b })

/-- Per-record body of `getFundingFiles` (src/index.js lines 341-349). -/
def getFundingFilesStep : List ProbeOutcome → Repo → StepResult Repo :=
  probeCollectorStep (fun r => r.has_funding_file)
    (fun r b => { r with has_funding_file := some b })

/-- Per-record body of `getCodeowners` (src/index.js lines 351-363). -/
def getCodeownersStep : List ProbeOutcome → Repo → StepResult Repo :=
  probeCollectorStep (fun r => r.has_codeowners)
    (fun r b => { r with has_codeowners := some b })

/-- Per-record body of `getChangelog` (src/index.js lines 365-377). -/
def getChangelogStep : List ProbeOutcome → Repo → StepResult Repo :=
  probeCollectorStep (fun r => r.has_changelog)
    (fun r b => { r with has_changelog := some b })

/-- Per-record body of `getCodespaces` (src/index.js lines 398-411). -/
def getCodespacesStep : List ProbeOutcome → Repo → StepResult Repo :=
  probeCollectorStep (fun r => r.has_codespaces)
    (fun r b => { r with has_codespaces := some b })

/-- Per-record body of `getDiscussions` (src/index.js lines 413-421). -/
def getDiscussionsStep : List ProbeOutcome → Repo → StepResult Repo :=
  probeCollectorStep (fun r => r.has_discussions)
    (fun r b => { r with has_discussions := some b })

/-- Per-record body of `getDependabot` (src/index.js lines 423-435). -/
def getDependabotStep : List ProbeOutcome → Repo → StepResult Repo :=
  probeCollectorStep (fun r => r.uses_dependabot)
    (fun r b => { r with uses_dependabot := some b })

/-- A collector's `for (const repo of listOfRepos)` loop: records are processed
in order, an `await` that throws aborts the loop with the exception propagating
(records already processed keep their new attributes, the current and remaining
records are untouched).  `env i` is the network outcome the `i`-th record's
request would produce; the boolean result reports whether the loop threw. -/
def runCollector {ω : Type} (step : ω → Repo → StepResult Repo) (env : Nat → ω) :
    Nat → List Repo → List Repo × Bool
  | _, [] => ([], false)
  | i, r :: rs =>
    match step (env i) r with
    | .thrown _ => (r :: rs, true)
    | .ok r2 _ =>
      let rest := runCollector step env (i + 1) rs
      (r2 :: rest.1, rest.2)

/-- Network oracles for every collector invoked by `getDetails`, one outcome
function per collector (indexed by record position). -/
structure DetailsEnv where
  workflows : Nat → WorkflowsOutcome
  community : Nat → CommunityOutcome
  readme : Nat → ReadmeOutcome
  languages : Nat → LanguagesOutcome
  support : Nat → List ProbeOutcome
  environments : Nat → EnvironmentsOutcome
  funding : Nat → List ProbeOutcome
  deployments : Nat → DeploymentsOutcome
  releases : Nat → ReleasesOutcome
  labels : Nat → LabelsOutcome
  milestones : Nat → MilestonesOutcome
  security : Nat → List ProbeOutcome
  codeowners : Nat → List ProbeOutcome
  changelog : Nat → List ProbeOutcome
  codespaces : Nat → List ProbeOutcome
  discussions : Nat → List ProbeOutcome
  dependabot : Nat → List ProbeOutcome

/-- Names of the collectors called by `getDetails`. -/
inductive CollectorName where
  | workflows
  | communityProfileMetrics
  | readmeLengths
  | languages
  | supportFiles
  | environments
  | fundingFiles
  | deployments
  | releases
  | issueLabelsCount
  | milestones
  | securityFiles
  | codeowners
  | changelog
  | codespaces
  | discussions
  | dependabot
deriving DecidableEq

/-- The fixed, sequential collector call order of `getDetails`
(src/index.js lines 693-709), transcribed verbatim. -/
def detailsSequence : List CollectorName :=
  [.workflows, .communityProfileMetrics, .readmeLengths, .languages,
   .supportFiles, .environments, .fundingFiles, .deployments, .releases,
   .issueLabelsCount, .milestones, .securityFiles, .codeowners, .changelog,
   .codespaces, .discussions, .dependabot]

/-- Dispatch a named collector to its loop over the record list. -/
def runNamed (env : DetailsEnv) : CollectorName → List Repo → List Repo × Bool
  | .workflows => runCollector getWorkflowsStep env.workflows 0
  | .communityProfileMetrics => runCollector getCommunityProfileMetricsStep env.community 0
  | .readmeLengths => runCollector getReadmeLengthsStep env.readme 0
  | .languages => runCollector getLanguagesStep env.languages 0
  | .supportFiles => runCollector getSupportFilesStep env.support 0
  | .environments => runCollector getEnvironmentsStep env.environments 0
  | .fundingFiles => runCollector getFundingFilesStep env.funding 0
  | .deployments => runCollector getDeploymentsStep env.deployments 0
  | .releases => runCollector getReleasesStep env.releases 0
  | .issueLabelsCount => runCollector getIssueLabelsCountStep env.labels 0
  | .milestones => runCollector getMilestonesStep env.milestones 0
  | .securityFiles => runCollector getSecurityFilesStep env.security 0
  | .codeowners => runCollector getCodeownersStep env.codeowners 0
  | .changelog => runCollector getChangelogStep env.changelog 0
  | .codespaces => runCollector getCodespacesStep env.codespaces 0
  | .discussions => runCollector getDiscussionsStep env.discussions 0
  | .dependabot => runCollector getDependabotStep env.dependabot 0

/-- `getDetails` (src/index.js lines 689-722): run the collectors of
`detailsSequence` in order over the record list; an exception from one
collector propagates, skipping all later collectors. -/
def getDetails (env : DetailsEnv) (l : List Repo) : List Repo × Bool :=
  detailsSequence.foldl (fun acc c => if acc.2 then acc else runNamed env c acc.1) (l, false)

/-- `removeDuplicateRepos` (src/index.js lines 683-687):
`listOfRepos.filter((repo, i, list) => i === list.findIndex(r => r.owner ===
repo.owner && r.repo === repo.repo))` -- keep the element at index `i` exactly
when `i` is the first index whose element has the same `(owner, repo)`
identity. -/
def sameIdentity (a b : Repo) : Bool :=
  a.owner == b.owner && a.repo == b.repo

def removeDuplicateRepos (listOfRepos : List Repo) : List Repo :=
  (listOfRepos.enum.filter
    (fun p => listOfRepos.findIdx (fun r => sameIdentity r p.2) == p.1)).map Prod.snd

/-- The invalid-record filter of `doBatch` (src/index.js line 770):
`repos.filter(repo => repo.contributor_count)` keeps a record exactly when its
`contributor_count` value is truthy. -/
def filterByContributorCount (repos : List Repo) : List Repo :=
  repos.filter (fun r => jsTruthyNum r.contributor_count)

/-- Network oracles and emitter behaviour for one batch. -/
structure BatchEnv where
  contrib : Nat → ContribOutcome
  details : DetailsEnv
  arffThrows : Bool

/-- Observable result of the collection part of one `doBatch` run (src/index.js
lines 767-781), starting after the merged record list has been assigned to the
module-level `repos` variable (line 764, before the `try`, so the `finally`
guard `if (repos)` is ever true -- an empty array is truthy).
`checkpoint`/`arff` hold the record lists written to `repos.json` /
`github.arff` (`none` = no such write happened); `detailsInput` is the filtered
list handed to `getDetails` (`none` when the contributor phase threw first). -/
structure BatchResult where
  finalRepos : List Repo
  checkpoint : Option (List Repo)
  arff : Option (List Repo)
  detailsInput : Option (List Repo)
  errored : Bool
  exitedEarly : Bool
deriving DecidableEq

/-- The `try`/`finally` collection phase of `doBatch` (src/index.js lines
767-781): collect contributor counts (a throw skips to the `finally`), filter
out records with a falsy count, run the remaining collectors, emit the ARFF
dataset, and -- over 10000 records -- `shutdown()`, which itself synchronously
writes `repos.json` before `process.exit`.  On every path the `finally` (or
`shutdown`) writes the current in-memory record list to `repos.json`. -/
def doBatch (env : BatchEnv) (repos0 : List Repo) : BatchResult :=
  let contribRes := runCollector getContributorCountsStep env.contrib 0 repos0
  if contribRes.2 then
    { finalRepos := contribRes.1, checkpoint := some contribRes.1, arff := none
      detailsInput := none, errored := true, exitedEarly := false }
  else
    let filtered := filterByContributorCount contribRes.1
    let detailsRes := getDetails env.details filtered
    if detailsRes.2 then
      { finalRepos := detailsRes.1, checkpoint := some detailsRes.1, arff := none
        detailsInput := some filtered, errored := true, exitedEarly := false }
    else if env.arffThrows then
      { finalRepos := detailsRes.1, checkpoint := some detailsRes.1, arff := none
        detailsInput := some filtered, errored := true, exitedEarly := false }
    else if detailsRes.1.length > 10000 then
      { finalRepos := detailsRes.1, checkpoint := some detailsRes.1, arff := some detailsRes.1
        detailsInput := some filtered, errored := false, exitedEarly := true }
    else
      { finalRepos := detailsRes.1, checkpoint := some detailsRes.1, arff := some detailsRes.1
        detailsInput := some filtered, errored := false, exitedEarly := false }

/-- Decision of the `onRateLimit` throttle hook (src/index.js lines 35-48):
always warn; sleep an extra second when the server-indicated wait is under 10
seconds (the near-zero-wait guard); grant a retry while the request's
`retryCount` -- the number of retries already performed, `0` at the first
rate-limit failure -- is at most 2. -/
structure ThrottleDecision where
  warned : Bool
  extraSleepMs : Nat
  retry : Bool
deriving DecidableEq

def onRateLimit (retryAfter retryCount : Nat) : ThrottleDecision :=
  { warned := true
    extraSleepMs := if retryAfter < 10 then 1000 else 0
    retry := decide (retryCount ≤ 2) }

/-- Decision of the `onAbuseLimit` throttle hook (src/index.js lines 49-53):
warn and never retry. -/
def onAbuseLimit (_retryAfter : Nat) : ThrottleDecision :=
  { warned := true, extraSleepMs := 0, retry := false }

/-- How many retries the throttling layer grants a request every one of whose
attempts hits the primary rate limit: the hook is consulted with
`retryCount = 0, 1, 2, ...` (retries already performed) and the request is
retried while the hook returns true. -/
def rateLimitRetriesGranted (retryAfter fuel : Nat) : Nat :=
  ((List.range fuel).takeWhile (fun n => (onRateLimit retryAfter n).retry)).length

/-- Model of the persist operation used for the checkpoint:
`writeRawDataToJsonFile` (src/index.js lines 678-681) and `shutdown` (lines
729-737) both write the serialized record list directly to `repos.json` with a
single `fs` `writeFile`/`writeFileSync` call -- the destination is truncated and
the buffer is written in place; no temporary file and no atomic rename is
involved.  A crash `k` units into the write therefore leaves the first `k`
units of the new contents on disk. -/
def writeFileInterrupted (newData : List Char) (k : Nat) : List Char :=
  newData.take k

/-- A fully-collected sample record, used to exercise the skip paths. -/
def sampleDone : Repo :=
  { owner := "o", repo := "r", default_branch := "main"
    contributor_count := some (.num 7), readme_size := some (.num 120)
    rawReadmeUrl := some "u", has_code_of_conduct := some true
    has_contributing := some false, has_issue_template := some true
    has_pull_request_template := some false, languages := some [("C", 10)]
    environments := some ["prod"], has_deployments := some true
    has_releases := some false, workflows_count := some 2
    labels_count := some (.num 9), milestones_count := some (.num 1)
    has_security_file := some true, has_support_file := some false
    has_funding_file := some true, has_codeowners := some false
    has_changelog := some true, has_codespaces := some false
    has_discussions := some true, uses_dependabot := some false }

/-- A freshly-discovered sample record (no collected attributes). -/
def sampleFresh : Repo := { owner := "o", repo := "r", default_branch := "main" }

/-- A second identity, never collected. -/
def sampleOther : Repo := { owner := "p", repo := "q", default_branch := "master" }

/-- A details environment with fixed benign outcomes, for concrete runs. -/
def sampleDetailsEnv : DetailsEnv :=
  { workflows := fun _ => .page 200 5
    community := fun _ => .success { readme_html_url := some "https://github.com/o/r/blob/main/README.md" }
    readme := fun _ => .head 200 (.num 33)
    languages := fun _ => .success [("C", 10)]
    support := fun _ => [.status 404, .status 404]
    environments := fun _ => .success []
    funding := fun _ => [.status 200]
    deployments := fun _ => .success 0
    releases := fun _ => .head 200 "https://github.com/o/r/releases"
    labels := fun _ => .page 200 (.num 4)
    milestones := fun _ => .page 404 (.num 0) (.num 0)
    security := fun _ => [.status 404]
    codeowners := fun _ => [.status 404]
    changelog := fun _ => [.status 200]
    codespaces := fun _ => [.status 404]
    discussions := fun _ => [.status 200]
    dependabot := fun _ => [.status 404] }

/-- A batch environment with fixed benign outcomes, for concrete runs. -/
def sampleBatchEnv : BatchEnv :=
  { contrib := fun _ => .page 200 (some (.num 3))
    details := sampleDetailsEnv
    arffThrows := false }

theorem probeFound_iff (o : ProbeOutcome) : probeFound o = true ↔ o = .status 200 := by
  cases o <;> simp [probeFound]

theorem probeIs404_iff (o : ProbeOutcome) : probeIs404 o = true ↔ o = .status 404 := by
  cases o <;> simp [probeIs404]

/-- C1: the Existence Probe resolves `true` whenever some candidate's check
returned 200 (first success wins, independent of completion order since only
the multiset of outcomes matters); it resolves `false` exactly when every
candidate returned 404; and when no candidate returned 200 but some candidate
produced anything other than a 404, it fails with an error instead of
resolving `false`. -/
theorem doesAnyFileExist_resolution (outcomes : List ProbeOutcome) :
    (ProbeOutcome.status 200 ∈ outcomes → doesAnyFileExist outcomes = .ok true)
    ∧ (doesAnyFileExist outcomes = .ok false ↔ ∀ o ∈ outcomes, o = .status 404)
    ∧ (ProbeOutcome.status 200 ∉ outcomes → (∃ o ∈ outcomes, o ≠ .status 404) →
        ∃ e, doesAnyFileExist outcomes = .error e) := by
  refine ⟨?_, ?_, ?_⟩
  · intro h
    have hany : outcomes.any probeFound = true :=
      List.any_eq_true.mpr ⟨_, h, (probeFound_iff _).mpr rfl⟩
    simp [doesAnyFileExist, hany]
  · constructor
    · intro h
      unfold doesAnyFileExist at h
      split at h
      · simp at h
      · split at h
        · next hall =>
          intro o ho
          exact (probeIs404_iff o).mp (List.all_eq_true.mp hall o ho)
        · simp at h
    · intro hall
      have hany : outcomes.any probeFound = false := by
        rw [List.any_eq_false]
        intro o ho hfo
        have h200 := (probeFound_iff o).mp hfo
        have h404 := hall o ho
        rw [h200] at h404
        cases h404
      have hall404 : outcomes.all probeIs404 = true :=
        List.all_eq_true.mpr fun o ho => (probeIs404_iff o).mpr (hall o ho)
      simp [doesAnyFileExist, hany, hall404]
  · intro hno hne
    have hany : outcomes.any probeFound = false := by
      rw [List.any_eq_false]
      intro o ho hfo
      exact hno ((probeFound_iff o).mp hfo ▸ ho)
    have hnall : outcomes.all probeIs404 = false := by
      obtain ⟨o, ho, hne404⟩ := hne
      rw [List.all_eq_false]
      exact ⟨o, ho, fun hfo => hne404 ((probeIs404_iff o).mp hfo)⟩
    exact ⟨outcomes, by simp [doesAnyFileExist, hany, hnall]⟩

/-- Witness for C1, at the spec's own example inputs. -/
theorem doesAnyFileExist_resolution_witness :
    doesAnyFileExist [.status 404, .status 200, .status 500] = .ok true
    ∧ doesAnyFileExist [.status 404, .status 404] = .ok false
    ∧ ∃ e, doesAnyFileExist [.status 404, .status 500] = .error e :=
  ⟨(doesAnyFileExist_resolution [.status 404, .status 200, .status 500]).1 (by decide),
   (doesAnyFileExist_resolution [.status 404, .status 404]).2.1.mpr (by decide),
   (doesAnyFileExist_resolution [.status 404, .status 500]).2.2 (by decide) (by decide)⟩

/-- C6 (failing input): on consecutive primary rate-limit failures of one
request the throttle hook is consulted with `retryCount` = 0, 1, 2, ... and the
request is retried while it returns true.  The code's own comment (src/index.js
line 42) says "Retry twice after hitting a rate limit error, then give up", yet
the condition `options.request.retryCount <= 2` also returns true at
`retryCount = 2` -- a third retry -- and only gives up at the fourth failure,
so 3 retries are granted, not 2.  The near-zero-wait sleep floor and the
no-retry abuse hook behave as claimed. -/
theorem onRateLimit_grants_third_retry :
    (onRateLimit 60 0).retry = true
    ∧ (onRateLimit 60 1).retry = true
    ∧ (onRateLimit 60 2).retry = true
    ∧ (onRateLimit 60 3).retry = false
    ∧ rateLimitRetriesGranted 60 10 = 3
    ∧ (onRateLimit 5 0).extraSleepMs = 1000
    ∧ (onRateLimit 60 0).extraSleepMs = 0
    ∧ (onAbuseLimit 60).retry = false := by decide

/-- C5 (counterexample): the checkpoint persist is a plain in-place
truncate-and-write of `repos.json`; a crash 3 units into writing the new
contents leaves a file that is neither the old checkpoint nor the new one. -/
theorem persist_crash_leaves_partial_file :
    writeFileInterrupted "new-checkpoint".toList 3 ≠ "old-checkpoint".toList
    ∧ writeFileInterrupted "new-checkpoint".toList 3 ≠ "new-checkpoint".toList := by
  decide

/-- C5 (amended): an uninterrupted persist leaves exactly the complete new
checkpoint contents on disk, and any crash state is a prefix of the new
contents -- but, with no temporary file or rename involved, the proper prefixes
are half-written files, so atomicity does not hold (see the counterexample). -/
theorem persist_uninterrupted_is_complete (newData : List Char) (k j : Nat)
    (h : newData.length ≤ k) :
    writeFileInterrupted newData k = newData
    ∧ (writeFileInterrupted newData j).isPrefixOf newData := by
  refine ⟨List.take_of_length_le h, ?_⟩
  rw [List.isPrefixOf_iff_prefix]
  exact List.take_prefix j newData

/-- Witness for the amended C5. -/
theorem persist_uninterrupted_is_complete_witness :
    "abc".toList.length ≤ 5
    ∧ (writeFileInterrupted "abc".toList 5 = "abc".toList
      ∧ (writeFileInterrupted "abc".toList 2).isPrefixOf "abc".toList) :=
  ⟨by decide, persist_uninterrupted_is_complete "abc".toList 5 2 (by decide)⟩

/-- C2: for every collector, a record whose target attribute key is already
present (whatever value it holds, including falsy ones -- presence is tested
with `hasOwnProperty`) is skipped entirely: the record is returned completely
unchanged and zero network requests are issued for it, whatever the network
outcome oracle would have produced.  In particular re-running a collector on an
already-collected record never overwrites the attribute. -/
theorem collectors_skip_when_attribute_present (r : Repo) :
    (∀ o, r.contributor_count.isSome → getContributorCountsStep o r = .ok r 0)
    ∧ (∀ o, r.workflows_count.isSome → getWorkflowsStep o r = .ok r 0)
    ∧ (∀ o, r.has_code_of_conduct.isSome → getCommunityProfileMetricsStep o r = .ok r 0)
    ∧ (∀ o, r.readme_size.isSome → getReadmeLengthsStep o r = .ok r 0)
    ∧ (∀ o, r.languages.isSome → getLanguagesStep o r = .ok r 0)
    ∧ (∀ os, r.has_support_file.isSome → getSupportFilesStep os r = .ok r 0)
    ∧ (∀ o, r.environments.isSome → getEnvironmentsStep o r = .ok r 0)
    ∧ (∀ os, r.has_funding_file.isSome → getFundingFilesStep os r = .ok r 0)
    ∧ (∀ o, r.has_deployments.isSome → getDeploymentsStep o r = .ok r 0)
    ∧ (∀ o, r.has_releases.isSome → getReleasesStep o r = .ok r 0)
    ∧ (∀ o, r.labels_count.isSome → getIssueLabelsCountStep o r = .ok r 0)
    ∧ (∀ o, r.milestones_count.isSome → getMilestonesStep o r = .ok r 0)
    ∧ (∀ os, r.has_security_file.isSome → getSecurityFilesStep os r = .ok r 0)
    ∧ (∀ os, r.has_codeowners.isSome → getCodeownersStep os r = .ok r 0)
    ∧ (∀ os, r.has_changelog.isSome → getChangelogStep os r = .ok r 0)
    ∧ (∀ os, r.has_codespaces.isSome → getCodespacesStep os r = .ok r 0)
    ∧ (∀ os, r.has_discussions.isSome → getDiscussionsStep os r = .ok r 0)
    ∧ (∀ os, r.uses_dependabot.isSome → getDependabotStep os r = .ok r 0) := by
  repeat' constructor
  all_goals intro o h
  all_goals
    simp [getContributorCountsStep, getWorkflowsStep, getCommunityProfileMetricsStep,
      getReadmeLengthsStep, getLanguagesStep, getSupportFilesStep, getEnvironmentsStep,
      getFundingFilesStep, getDeploymentsStep, getReleasesStep, getIssueLabelsCountStep,
      getMilestonesStep, getSecurityFilesStep, getCodeownersStep, getChangelogStep,
      getCodespacesStep, getDiscussionsStep, getDependabotStep, probeCollectorStep, h]

/-- Witness for C2: every collector skips the fully-collected sample record. -/
theorem collectors_skip_when_attribute_present_witness :
    getContributorCountsStep (.page 500 none) sampleDone = .ok sampleDone 0
    ∧ getWorkflowsStep .netError sampleDone = .ok sampleDone 0
    ∧ getCommunityProfileMetricsStep .apiError sampleDone = .ok sampleDone 0
    ∧ getReadmeLengthsStep (.head 404 (.num 9)) sampleDone = .ok sampleDone 0
    ∧ getLanguagesStep .apiError sampleDone = .ok sampleDone 0
    ∧ getSupportFilesStep [.status 200] sampleDone = .ok sampleDone 0
    ∧ getEnvironmentsStep (.success ["x"]) sampleDone = .ok sampleDone 0
    ∧ getFundingFilesStep [.status 500] sampleDone = .ok sampleDone 0
    ∧ getDeploymentsStep (.success 3) sampleDone = .ok sampleDone 0
    ∧ getReleasesStep .netError sampleDone = .ok sampleDone 0
    ∧ getIssueLabelsCountStep (.page 200 .nan) sampleDone = .ok sampleDone 0
    ∧ getMilestonesStep .netError sampleDone = .ok sampleDone 0
    ∧ getSecurityFilesStep [] sampleDone = .ok sampleDone 0
    ∧ getCodeownersStep [.netError] sampleDone = .ok sampleDone 0
    ∧ getChangelogStep [.status 404] sampleDone = .ok sampleDone 0
    ∧ getCodespacesStep [.status 200] sampleDone = .ok sampleDone 0
    ∧ getDiscussionsStep [.status 500] sampleDone = .ok sampleDone 0
    ∧ getDependabotStep [.status 404] sampleDone = .ok sampleDone 0 := by
  have h := collectors_skip_when_attribute_present sampleDone
  exact ⟨h.1 _ (by decide), h.2.1 _ (by decide), h.2.2.1 _ (by decide),
    h.2.2.2.1 _ (by decide), h.2.2.2.2.1 _ (by decide), h.2.2.2.2.2.1 _ (by decide),
    h.2.2.2.2.2.2.1 _ (by decide), h.2.2.2.2.2.2.2.1 _ (by decide),
    h.2.2.2.2.2.2.2.2.1 _ (by decide), h.2.2.2.2.2.2.2.2.2.1 _ (by decide),
    h.2.2.2.2.2.2.2.2.2.2.1 _ (by decide), h.2.2.2.2.2.2.2.2.2.2.2.1 _ (by decide),
    h.2.2.2.2.2.2.2.2.2.2.2.2.1 _ (by decide), h.2.2.2.2.2.2.2.2.2.2.2.2.2.1 _ (by decide),
    h.2.2.2.2.2.2.2.2.2.2.2.2.2.2.1 _ (by decide),
    h.2.2.2.2.2.2.2.2.2.2.2.2.2.2.2.1 _ (by decide),
    h.2.2.2.2.2.2.2.2.2.2.2.2.2.2.2.2.1 _ (by decide),
    h.2.2.2.2.2.2.2.2.2.2.2.2.2.2.2.2.2 _ (by decide)⟩

/-- C8: in the fixed collector sequence of `getDetails`, the community-profile
collector (which resolves `rawReadmeUrl`) precedes the README-size collector,
and the environments collector precedes the deployments collector; moreover a
record whose `environments` attribute is the empty list gets
`has_deployments = false` from `getDeployments` with zero API calls. -/
theorem details_order_and_zero_environments_shortcircuit :
    detailsSequence.indexOf CollectorName.communityProfileMetrics
      < detailsSequence.indexOf CollectorName.readmeLengths
    ∧ detailsSequence.indexOf CollectorName.environments
      < detailsSequence.indexOf CollectorName.deployments
    ∧ ∀ (o : DeploymentsOutcome) (r : Repo), r.environments = some [] →
        r.has_deployments = none →
        getDeploymentsStep o r = .ok { r with has_deployments := some false } 0 := by
  refine ⟨by decide, by decide, ?_⟩
  intro o r h1 h2
  simp [getDeploymentsStep, h1, h2]

/-- Witness for C8. -/
theorem details_order_and_zero_environments_shortcircuit_witness :
    ({ sampleFresh with environments := some [] } : Repo).environments = some []
    ∧ ({ sampleFresh with environments := some [] } : Repo).has_deployments = none
    ∧ getDeploymentsStep (.success 5) { sampleFresh with environments := some [] }
        = .ok { { sampleFresh with environments := some [] } with
            has_deployments := some false } 0 :=
  ⟨by decide, by decide,
    details_order_and_zero_environments_shortcircuit.2.2 (.success 5)
      { sampleFresh with environments := some [] } (by decide) (by decide)⟩

/-- C9 (implicit behaviour): when the environments listing fails for a record,
`getEnvironments` stores the empty list -- marking the attribute as collected,
so later runs skip the record and never retry -- and `getDeployments` then
derives `has_deployments = false` from the empty list without ever querying
the deployments endpoint. -/
theorem environments_error_becomes_no_deployments (r : Repo)
    (h1 : r.environments = none) (h2 : r.has_deployments = none) :
    getEnvironmentsStep .apiError r = .ok { r with environments := some [] } 1
    ∧ (∀ o, getEnvironmentsStep o { r with environments := some ([] : List String) }
        = .ok { r with environments := some [] } 0)
    ∧ (∀ o, getDeploymentsStep o { r with environments := some ([] : List String) }
        = .ok { r with environments := some [], has_deployments := some false } 0) := by
  refine ⟨?_, ?_, ?_⟩
  · simp [getEnvironmentsStep, h1]
  · intro o
    simp [getEnvironmentsStep]
  · intro o
    simp [getDeploymentsStep, h2]

/-- Witness for C9. -/
theorem environments_error_becomes_no_deployments_witness :
    sampleFresh.environments = none
    ∧ sampleFresh.has_deployments = none
    ∧ (getEnvironmentsStep .apiError sampleFresh
        = .ok { sampleFresh with environments := some [] } 1
      ∧ (∀ o, getEnvironmentsStep o { sampleFresh with environments := some ([] : List String) }
          = .ok { sampleFresh with environments := some [] } 0)
      ∧ (∀ o, getDeploymentsStep o { sampleFresh with environments := some ([] : List String) }
          = .ok { sampleFresh with environments := some [], has_deployments := some false } 0)) :=
  ⟨by decide, by decide,
    environments_error_becomes_no_deployments sampleFresh (by decide) (by decide)⟩

/-- C10 (implicit behaviour): the invalid-record filter keeps a record exactly
when its `contributor_count` is truthy, so it drops not only records with the
key absent but also counts explicitly determined as 0 and sidebar text that
coerced to NaN -- "could not determine" and "determined to be zero" are not
distinguished; and when the contributors sidebar anchor is absent from a
successfully fetched page, the collector stores exactly 1. -/
theorem contributor_filter_on_truthiness (l : List Repo) (r : Repo) :
    (r ∈ filterByContributorCount l ↔ r ∈ l ∧ jsTruthyNum r.contributor_count)
    ∧ (r.contributor_count = some (.num 0) → r ∉ filterByContributorCount l)
    ∧ (r.contributor_count = some .nan → r ∉ filterByContributorCount l)
    ∧ (r.contributor_count = none → r ∉ filterByContributorCount l)
    ∧ (r.contributor_count = none →
        getContributorCountsStep (.page 200 none) r
          = .ok { r with contributor_count := some (.num 1) } 1) := by
  refine ⟨List.mem_filter, ?_, ?_, ?_, ?_⟩
  · intro h hmem
    have := (List.mem_filter.mp hmem).2
    rw [h] at this
    simp [jsTruthyNum] at this
  · intro h hmem
    have := (List.mem_filter.mp hmem).2
    rw [h] at this
    simp [jsTruthyNum] at this
  · intro h hmem
    have := (List.mem_filter.mp hmem).2
    rw [h] at this
    simp [jsTruthyNum] at this
  · intro h
    simp [getContributorCountsStep, h]

/-- Witness for C10. -/
theorem contributor_filter_on_truthiness_witness :
    (sampleDone ∈ filterByContributorCount [sampleDone, sampleFresh]
      ↔ sampleDone ∈ [sampleDone, sampleFresh]
        ∧ jsTruthyNum sampleDone.contributor_count)
    ∧ ({ sampleFresh with contributor_count := some (.num 0) } : Repo).contributor_count
        = some (.num 0)
    ∧ sampleFresh.contributor_count = none
    ∧ ({ sampleFresh with contributor_count := some (.num 0) } : Repo)
        ∉ filterByContributorCount [{ sampleFresh with contributor_count := some (.num 0) }]
    ∧ getContributorCountsStep (.page 200 none) sampleFresh
        = .ok { sampleFresh with contributor_count := some (.num 1) } 1 :=
  ⟨(contributor_filter_on_truthiness [sampleDone, sampleFresh] sampleDone).1,
   by decide, by decide,
   (contributor_filter_on_truthiness
      [{ sampleFresh with contributor_count := some (.num 0) }]
      { sampleFresh with contributor_count := some (.num 0) }).2.1 (by decide),
   (contributor_filter_on_truthiness [] sampleFresh).2.2.2.2 (by decide)⟩


/-- C4: whatever the network outcomes -- the contributor collector throwing, a
details collector throwing, the ARFF emitter throwing, clean success, or the
over-10000 shutdown path (where `shutdown` itself performs the synchronous
write) -- the batch always ends with the current in-memory record list written
to the checkpoint file `repos.json`; persistence is unconditional. -/
theorem doBatch_always_writes_checkpoint (env : BatchEnv) (repos0 : List Repo) :
    (doBatch env repos0).checkpoint = some (doBatch env repos0).finalRepos := by
  simp only [doBatch]
  split
  · rfl
  · split
    · rfl
    · split
      · rfl
      · split <;> rfl

theorem sameIdentity_refl (a : Repo) : sameIdentity a a = true := by
  simp [sameIdentity]

theorem sameIdentity_symm {a b : Repo} (h : sameIdentity a b = true) :
    sameIdentity b a = true := by
  simp only [sameIdentity, Bool.and_eq_true, beq_iff_eq] at *
  exact ⟨h.1.symm, h.2.symm⟩

theorem sameIdentity_congr {a b : Repo} (h : sameIdentity a b = true) (c : Repo) :
    sameIdentity c a = sameIdentity c b := by
  simp only [sameIdentity, Bool.and_eq_true, beq_iff_eq] at h
  simp [sameIdentity, h.1, h.2]

theorem sameIdentity_trans {a b c : Repo} (h1 : sameIdentity a b = true)
    (h2 : sameIdentity b c = true) : sameIdentity a c = true := by
  rw [← sameIdentity_congr h2 a]
  exact h1

theorem mem_removeDuplicateRepos_iff {l : List Repo} {x : Repo} :
    x ∈ removeDuplicateRepos l ↔
      ∃ i, l[i]? = some x ∧ l.findIdx (fun r => sameIdentity r x) = i := by
  unfold removeDuplicateRepos
  rw [List.mem_map]
  constructor
  · rintro ⟨⟨i, y⟩, hp, rfl⟩
    rw [List.mem_filter] at hp
    refine ⟨i, ?_, ?_⟩
    · exact List.mk_mem_enum_iff_getElem?.mp hp.1
    · simpa using hp.2
  · rintro ⟨i, hget, hidx⟩
    refine ⟨(i, x), ?_, rfl⟩
    rw [List.mem_filter]
    exact ⟨List.mk_mem_enum_iff_getElem?.mpr hget, by simp [hidx]⟩

theorem find?_eq_getElem?_findIdx {α : Type} {p : α → Bool} (l : List α) :
    l.find? p = l[l.findIdx p]? := by
  induction l with
  | nil => simp
  | cons a as ih =>
    by_cases ha : p a
    · simp [List.find?_cons_of_pos _ ha, List.findIdx_cons, ha]
    · rw [List.find?_cons_of_neg _ ha, List.findIdx_cons]
      simp only [ha, cond_false]
      rw [List.getElem?_cons_succ]
      exact ih

theorem enum_nodup {α : Type} (l : List α) : l.enum.Nodup := by
  apply List.Nodup.of_map Prod.fst
  rw [List.enum_eq_enumFrom, List.enumFrom_map_fst]
  exact List.nodup_range' 0 l.length

theorem removeDuplicateRepos_nodup (l : List Repo) : (removeDuplicateRepos l).Nodup := by
  unfold removeDuplicateRepos
  apply List.Nodup.map_on
  · rintro ⟨i, x⟩ hx ⟨j, y⟩ hy h
    dsimp at h
    subst h
    rw [List.mem_filter] at hx hy
    have hi : l.findIdx (fun r => sameIdentity r x) = i := by simpa using hx.2
    have hj : l.findIdx (fun r => sameIdentity r x) = j := by simpa using hy.2
    rw [hi] at hj
    rw [hj]
  · exact List.Nodup.filter _ (enum_nodup l)

theorem removeDuplicateRepos_unique {l : List Repo} {a b : Repo}
    (ha : a ∈ removeDuplicateRepos l) (hb : b ∈ removeDuplicateRepos l)
    (hab : sameIdentity a b = true) : a = b := by
  obtain ⟨i, hgi, hii⟩ := mem_removeDuplicateRepos_iff.mp ha
  obtain ⟨j, hgj, hjj⟩ := mem_removeDuplicateRepos_iff.mp hb
  have hpred : (fun r => sameIdentity r a) = (fun r => sameIdentity r b) := by
    funext r
    exact sameIdentity_congr hab r
  rw [hpred, hjj] at hii
  subst hii
  rw [hgi] at hgj
  exact Option.some.inj hgj

theorem exists_mem_removeDuplicateRepos {l : List Repo} {r : Repo} (hr : r ∈ l) :
    ∃ x ∈ removeDuplicateRepos l, sameIdentity x r = true := by
  have hex : ∃ y ∈ l, sameIdentity y r = true := ⟨r, hr, sameIdentity_refl r⟩
  have hlt := List.findIdx_lt_length_of_exists hex
  refine ⟨l[l.findIdx (fun y => sameIdentity y r)], ?_, ?_⟩
  · rw [mem_removeDuplicateRepos_iff]
    refine ⟨l.findIdx (fun y => sameIdentity y r), List.getElem?_eq_getElem hlt, ?_⟩
    have hpi : sameIdentity l[l.findIdx (fun y => sameIdentity y r)] r = true :=
      List.findIdx_getElem (w := hlt)
    have : (fun y => sameIdentity y l[l.findIdx (fun y => sameIdentity y r)])
        = (fun y => sameIdentity y r) := by
      funext y
      exact sameIdentity_congr hpi y
    rw [this]
  · exact List.findIdx_getElem (w := hlt)

theorem removeDuplicateRepos_keeps_first {l : List Repo} {x : Repo}
    (hx : x ∈ removeDuplicateRepos l) :
    l.find? (fun y => sameIdentity y x) = some x := by
  obtain ⟨i, hgi, hii⟩ := mem_removeDuplicateRepos_iff.mp hx
  rw [find?_eq_getElem?_findIdx, hii, hgi]

theorem length_le_one_of_nodup_of_all_eq {α : Type} {l : List α} (hnd : l.Nodup)
    (h : ∀ a ∈ l, ∀ b ∈ l, a = b) : l.length ≤ 1 := by
  match l with
  | [] => simp
  | [a] => simp
  | a :: b :: xs =>
    exfalso
    have hab : a = b := h a (by simp) b (by simp)
    rw [List.nodup_cons] at hnd
    exact hnd.1 (hab ▸ List.mem_cons_self b xs)

theorem removeDuplicateRepos_countP {l : List Repo} {r : Repo} (hr : r ∈ l) :
    (removeDuplicateRepos l).countP (fun x => sameIdentity x r) = 1 := by
  obtain ⟨x, hx, hsame⟩ := exists_mem_removeDuplicateRepos hr
  have hpos : 0 < (removeDuplicateRepos l).countP (fun x => sameIdentity x r) :=
    List.countP_pos_iff.mpr ⟨x, hx, hsame⟩
  have hle : (removeDuplicateRepos l).countP (fun x => sameIdentity x r) ≤ 1 := by
    rw [List.countP_eq_length_filter]
    apply length_le_one_of_nodup_of_all_eq
    · exact List.Nodup.filter _ (removeDuplicateRepos_nodup l)
    · intro a ha b hb
      rw [List.mem_filter] at ha hb
      exact removeDuplicateRepos_unique ha.1 hb.1
        (sameIdentity_trans ha.2 (sameIdentity_symm hb.2))
  omega

/-- C3: merging previously saved records with freshly discovered ones via
`removeDuplicateRepos (saved ++ discovered)` yields exactly one record per
identity occurring in the input; every kept record is the first occurrence of
its identity in the concatenation; and because saved records precede
discovered ones, any identity present among the saved records is represented
by a saved record itself -- with all its already-collected attributes --
rather than by a fresh discovery snapshot. -/
theorem merge_dedup_keeps_first_and_saved (saved discovered : List Repo) :
    (∀ r ∈ saved ++ discovered,
      (removeDuplicateRepos (saved ++ discovered)).countP (fun x => sameIdentity x r) = 1)
    ∧ (∀ x ∈ removeDuplicateRepos (saved ++ discovered),
      (saved ++ discovered).find? (fun y => sameIdentity y x) = some x)
    ∧ (∀ s ∈ saved, ∃ x ∈ removeDuplicateRepos (saved ++ discovered),
      sameIdentity x s = true ∧ x ∈ saved) := by
  refine ⟨fun r hr => removeDuplicateRepos_countP hr,
    fun x hx => removeDuplicateRepos_keeps_first hx, ?_⟩
  intro s hs
  obtain ⟨x, hx, hsame⟩ := exists_mem_removeDuplicateRepos
    (List.mem_append_left discovered hs)
  refine ⟨x, hx, hsame, ?_⟩
  have hfirst := removeDuplicateRepos_keeps_first hx
  rw [List.find?_append] at hfirst
  have hsaved : (saved.find? (fun y => sameIdentity y x)).isSome := by
    rw [List.find?_isSome]
    exact ⟨s, hs, sameIdentity_symm hsame⟩
  obtain ⟨z, hz⟩ := Option.isSome_iff_exists.mp hsaved
  rw [hz, Option.or_some] at hfirst
  cases hfirst
  exact List.mem_of_find?_eq_some hz

/-- Witness for C3: the saved fully-collected record survives the merge with a
fresh snapshot of the same identity. -/
theorem merge_dedup_keeps_first_and_saved_witness :
    (removeDuplicateRepos ([sampleDone, sampleOther] ++ [sampleFresh])).countP
        (fun x => sameIdentity x sampleFresh) = 1
    ∧ ([sampleDone, sampleOther] ++ [sampleFresh]).find?
        (fun y => sameIdentity y sampleDone) = some sampleDone
    ∧ ∃ x ∈ removeDuplicateRepos ([sampleDone, sampleOther] ++ [sampleFresh]),
        sameIdentity x sampleDone = true ∧ x ∈ [sampleDone, sampleOther] :=
  ⟨(merge_dedup_keeps_first_and_saved [sampleDone, sampleOther] [sampleFresh]).1
      sampleFresh (by decide),
   (merge_dedup_keeps_first_and_saved [sampleDone, sampleOther] [sampleFresh]).2.1
      sampleDone (by decide),
   (merge_dedup_keeps_first_and_saved [sampleDone, sampleOther] [sampleFresh]).2.2
      sampleDone (by decide)⟩

theorem getWorkflowsStep_keeps_cc {o : WorkflowsOutcome} {r r2 : Repo} {n : Nat}
    (h : getWorkflowsStep o r = .ok r2 n) : r2.contributor_count = r.contributor_count := by
  unfold getWorkflowsStep at h
  repeat' split at h
  all_goals first | (cases h; rfl) | simp at h

theorem getCommunityProfileMetricsStep_keeps_cc {o : CommunityOutcome} {r r2 : Repo} {n : Nat}
    (h : getCommunityProfileMetricsStep o r = .ok r2 n) :
    r2.contributor_count = r.contributor_count := by
  unfold getCommunityProfileMetricsStep at h
  repeat' split at h
  all_goals first | (cases h; rfl) | simp at h

theorem getReadmeLengthsStep_keeps_cc {o : ReadmeOutcome} {r r2 : Repo} {n : Nat}
    (h : getReadmeLengthsStep o r = .ok r2 n) : r2.contributor_count = r.contributor_count := by
  unfold getReadmeLengthsStep at h
  repeat' split at h
  all_goals (cases h; rfl)

theorem getLanguagesStep_keeps_cc {o : LanguagesOutcome} {r r2 : Repo} {n : Nat}
    (h : getLanguagesStep o r = .ok r2 n) : r2.contributor_count = r.contributor_count := by
  unfold getLanguagesStep at h
  repeat' split at h
  all_goals (cases h <;> rfl)

theorem getEnvironmentsStep_keeps_cc {o : EnvironmentsOutcome} {r r2 : Repo} {n : Nat}
    (h : getEnvironmentsStep o r = .ok r2 n) : r2.contributor_count = r.contributor_count := by
  unfold getEnvironmentsStep at h
  repeat' split at h
  all_goals (cases h; rfl)

theorem getDeploymentsStep_keeps_cc {o : DeploymentsOutcome} {r r2 : Repo} {n : Nat}
    (h : getDeploymentsStep o r = .ok r2 n) : r2.contributor_count = r.contributor_count := by
  unfold getDeploymentsStep at h
  repeat' split at h
  all_goals (cases h; rfl)

theorem getReleasesStep_keeps_cc {o : ReleasesOutcome} {r r2 : Repo} {n : Nat}
    (h : getReleasesStep o r = .ok r2 n) : r2.contributor_count = r.contributor_count := by
  unfold getReleasesStep at h
  repeat' split at h
  all_goals first | (cases h; rfl) | simp at h

theorem getIssueLabelsCountStep_keeps_cc {o : LabelsOutcome} {r r2 : Repo} {n : Nat}
    (h : getIssueLabelsCountStep o r = .ok r2 n) :
    r2.contributor_count = r.contributor_count := by
  unfold getIssueLabelsCountStep at h
  repeat' split at h
  all_goals first | (cases h; rfl) | simp at h

theorem getMilestonesStep_keeps_cc {o : MilestonesOutcome} {r r2 : Repo} {n : Nat}
    (h : getMilestonesStep o r = .ok r2 n) : r2.contributor_count = r.contributor_count := by
  unfold getMilestonesStep at h
  repeat' split at h
  all_goals first | (cases h; rfl) | simp at h

theorem probeCollectorStep_keeps_cc {get : Repo → Option Bool} {set : Repo → Bool → Repo}
    (hset : ∀ r b, (set r b).contributor_count = r.contributor_count)
    {os : List ProbeOutcome} {r r2 : Repo} {n : Nat}
    (h : probeCollectorStep get set os r = .ok r2 n) :
    r2.contributor_count = r.contributor_count := by
  unfold probeCollectorStep at h
  split at h
  · cases h; rfl
  · split at h
    · cases h; exact hset r _
    · simp at h

theorem getSupportFilesStep_keeps_cc {os : List ProbeOutcome} {r r2 : Repo} {n : Nat}
    (h : getSupportFilesStep os r = .ok r2 n) : r2.contributor_count = r.contributor_count := by
  unfold getSupportFilesStep at h
  refine probeCollectorStep_keeps_cc ?_ h
  intro r b
  rfl

theorem getFundingFilesStep_keeps_cc {os : List ProbeOutcome} {r r2 : Repo} {n : Nat}
    (h : getFundingFilesStep os r = .ok r2 n) : r2.contributor_count = r.contributor_count := by
  unfold getFundingFilesStep at h
  refine probeCollectorStep_keeps_cc ?_ h
  intro r b
  rfl

theorem getSecurityFilesStep_keeps_cc {os : List ProbeOutcome} {r r2 : Repo} {n : Nat}
    (h : getSecurityFilesStep os r = .ok r2 n) : r2.contributor_count = r.contributor_count := by
  unfold getSecurityFilesStep at h
  refine probeCollectorStep_keeps_cc ?_ h
  intro r b
  rfl

theorem getCodeownersStep_keeps_cc {os : List ProbeOutcome} {r r2 : Repo} {n : Nat}
    (h : getCodeownersStep os r = .ok r2 n) : r2.contributor_count = r.contributor_count := by
  unfold getCodeownersStep at h
  refine probeCollectorStep_keeps_cc ?_ h
  intro r b
  rfl

theorem getChangelogStep_keeps_cc {os : List ProbeOutcome} {r r2 : Repo} {n : Nat}
    (h : getChangelogStep os r = .ok r2 n) : r2.contributor_count = r.contributor_count := by
  unfold getChangelogStep at h
  refine probeCollectorStep_keeps_cc ?_ h
  intro r b
  rfl

theorem getCodespacesStep_keeps_cc {os : List ProbeOutcome} {r r2 : Repo} {n : Nat}
    (h : getCodespacesStep os r = .ok r2 n) : r2.contributor_count = r.contributor_count := by
  unfold getCodespacesStep at h
  refine probeCollectorStep_keeps_cc ?_ h
  intro r b
  rfl

theorem getDiscussionsStep_keeps_cc {os : List ProbeOutcome} {r r2 : Repo} {n : Nat}
    (h : getDiscussionsStep os r = .ok r2 n) : r2.contributor_count = r.contributor_count := by
  unfold getDiscussionsStep at h
  refine probeCollectorStep_keeps_cc ?_ h
  intro r b
  rfl

theorem getDependabotStep_keeps_cc {os : List ProbeOutcome} {r r2 : Repo} {n : Nat}
    (h : getDependabotStep os r = .ok r2 n) : r2.contributor_count = r.contributor_count := by
  unfold getDependabotStep at h
  refine probeCollectorStep_keeps_cc ?_ h
  intro r b
  rfl

theorem runCollector_truthy_invariant {ω : Type} {step : ω → Repo → StepResult Repo}
    (hstep : ∀ o r r2 n, step o r = .ok r2 n → r2.contributor_count = r.contributor_count)
    (env : Nat → ω) :
    ∀ (i : Nat) (l : List Repo), (∀ r ∈ l, jsTruthyNum r.contributor_count) →
      ∀ x ∈ (runCollector step env i l).1, jsTruthyNum x.contributor_count := by
  intro i l
  induction l generalizing i with
  | nil =>
    intro _ x hx
    simp [runCollector] at hx
  | cons r rs ih =>
    intro hall x hx
    rw [runCollector] at hx
    cases hc : step (env i) r with
    | thrown k =>
      rw [hc] at hx
      exact hall x hx
    | ok r2 k =>
      rw [hc] at hx
      dsimp only at hx
      rcases List.mem_cons.mp hx with hx1 | hx2
      · subst hx1
        rw [hstep _ _ _ _ hc]
        exact hall r (List.mem_cons_self r rs)
      · exact ih (i + 1) (fun y hy => hall y (List.mem_cons_of_mem r hy)) x hx2

theorem runNamed_truthy_invariant (env : DetailsEnv) (c : CollectorName) (l : List Repo)
    (hl : ∀ r ∈ l, jsTruthyNum r.contributor_count) :
    ∀ x ∈ (runNamed env c l).1, jsTruthyNum x.contributor_count := by
  cases c with
  | workflows =>
    exact runCollector_truthy_invariant
      (fun _ _ _ _ h => getWorkflowsStep_keeps_cc h) env.workflows 0 l hl
  | communityProfileMetrics =>
    exact runCollector_truthy_invariant
      (fun _ _ _ _ h => getCommunityProfileMetricsStep_keeps_cc h) env.community 0 l hl
  | readmeLengths =>
    exact runCollector_truthy_invariant
      (fun _ _ _ _ h => getReadmeLengthsStep_keeps_cc h) env.readme 0 l hl
  | languages =>
    exact runCollector_truthy_invariant
      (fun _ _ _ _ h => getLanguagesStep_keeps_cc h) env.languages 0 l hl
  | supportFiles =>
    exact runCollector_truthy_invariant
      (fun _ _ _ _ h => getSupportFilesStep_keeps_cc h) env.support 0 l hl
  | environments =>
    exact runCollector_truthy_invariant
      (fun _ _ _ _ h => getEnvironmentsStep_keeps_cc h) env.environments 0 l hl
  | fundingFiles =>
    exact runCollector_truthy_invariant
      (fun _ _ _ _ h => getFundingFilesStep_keeps_cc h) env.funding 0 l hl
  | deployments =>
    exact runCollector_truthy_invariant
      (fun _ _ _ _ h => getDeploymentsStep_keeps_cc h) env.deployments 0 l hl
  | releases =>
    exact runCollector_truthy_invariant
      (fun _ _ _ _ h => getReleasesStep_keeps_cc h) env.releases 0 l hl
  | issueLabelsCount =>
    exact runCollector_truthy_invariant
      (fun _ _ _ _ h => getIssueLabelsCountStep_keeps_cc h) env.labels 0 l hl
  | milestones =>
    exact runCollector_truthy_invariant
      (fun _ _ _ _ h => getMilestonesStep_keeps_cc h) env.milestones 0 l hl
  | securityFiles =>
    exact runCollector_truthy_invariant
      (fun _ _ _ _ h => getSecurityFilesStep_keeps_cc h) env.security 0 l hl
  | codeowners =>
    exact runCollector_truthy_invariant
      (fun _ _ _ _ h => getCodeownersStep_keeps_cc h) env.codeowners 0 l hl
  | changelog =>
    exact runCollector_truthy_invariant
      (fun _ _ _ _ h => getChangelogStep_keeps_cc h) env.changelog 0 l hl
  | codespaces =>
    exact runCollector_truthy_invariant
      (fun _ _ _ _ h => getCodespacesStep_keeps_cc h) env.codespaces 0 l hl
  | discussions =>
    exact runCollector_truthy_invariant
      (fun _ _ _ _ h => getDiscussionsStep_keeps_cc h) env.discussions 0 l hl
  | dependabot =>
    exact runCollector_truthy_invariant
      (fun _ _ _ _ h => getDependabotStep_keeps_cc h) env.dependabot 0 l hl

theorem foldl_details_truthy_invariant (env : DetailsEnv) (cs : List CollectorName) :
    ∀ (acc : List Repo × Bool), (∀ r ∈ acc.1, jsTruthyNum r.contributor_count) →
      ∀ x ∈ (cs.foldl (fun acc c => if acc.2 then acc else runNamed env c acc.1) acc).1,
        jsTruthyNum x.contributor_count := by
  induction cs with
  | nil =>
    intro acc h x hx
    exact h x hx
  | cons c cs ih =>
    intro acc h x hx
    rw [List.foldl_cons] at hx
    by_cases hb : acc.2
    · simp only [hb, if_true] at hx
      exact ih acc h x hx
    · rw [if_neg (by simp [hb])] at hx
      exact ih (runNamed env c acc.1) (runNamed_truthy_invariant env c acc.1 h) x hx

theorem getDetails_truthy_invariant (env : DetailsEnv) (l : List Repo)
    (hl : ∀ r ∈ l, jsTruthyNum r.contributor_count) :
    ∀ x ∈ (getDetails env l).1, jsTruthyNum x.contributor_count := by
  unfold getDetails
  exact foldl_details_truthy_invariant env detailsSequence (l, false) hl

theorem filterByContributorCount_truthy (l : List Repo) :
    ∀ r ∈ filterByContributorCount l, jsTruthyNum r.contributor_count := by
  intro r hr
  exact (List.mem_filter.mp hr).2

/-- C7: once the contributor-count phase and its filter have run, every record
without a truthy contributor count is gone: the list handed to `getDetails`
(and hence to every remaining collector), the list emitted to the ARFF dataset
and the list persisted to the checkpoint at the end of the batch contain only
records with a truthy `contributor_count` (the collectors of `getDetails`
never alter that attribute). -/
theorem invalid_records_absent_downstream (env : BatchEnv) (repos0 : List Repo)
    (h : ((doBatch env repos0).detailsInput).isSome) :
    ((doBatch env repos0).detailsInput.getD []).all (fun r => jsTruthyNum r.contributor_count)
    ∧ ((doBatch env repos0).arff.getD []).all (fun r => jsTruthyNum r.contributor_count)
    ∧ ((doBatch env repos0).checkpoint.getD []).all
        (fun r => jsTruthyNum r.contributor_count) := by
  by_cases hc : (runCollector getContributorCountsStep env.contrib 0 repos0).2
  · exfalso
    simp [doBatch, hc] at h
  · have hfilter := filterByContributorCount_truthy
      (runCollector getContributorCountsStep env.contrib 0 repos0).1
    have hdetails := getDetails_truthy_invariant env.details
      (filterByContributorCount (runCollector getContributorCountsStep env.contrib 0 repos0).1)
      hfilter
    have hfilterB : (filterByContributorCount
        (runCollector getContributorCountsStep env.contrib 0 repos0).1).all
        (fun r => jsTruthyNum r.contributor_count) := List.all_eq_true.mpr hfilter
    have hdetailsB : ((getDetails env.details (filterByContributorCount
        (runCollector getContributorCountsStep env.contrib 0 repos0).1)).1).all
        (fun r => jsTruthyNum r.contributor_count) := List.all_eq_true.mpr hdetails
    simp only [doBatch]
    rw [if_neg hc]
    split
    · exact ⟨hfilterB, rfl, hdetailsB⟩
    · split
      · exact ⟨hfilterB, rfl, hdetailsB⟩
      · split
        · exact ⟨hfilterB, hdetailsB, hdetailsB⟩
        · exact ⟨hfilterB, hdetailsB, hdetailsB⟩

/-- Witness for C7, at a concrete batch over two fresh records. -/
theorem invalid_records_absent_downstream_witness :
    ((doBatch sampleBatchEnv [sampleFresh, sampleOther]).detailsInput).isSome = true
    ∧ (((doBatch sampleBatchEnv [sampleFresh, sampleOther]).detailsInput.getD []).all
        (fun r => jsTruthyNum r.contributor_count)
      ∧ ((doBatch sampleBatchEnv [sampleFresh, sampleOther]).arff.getD []).all
        (fun r => jsTruthyNum r.contributor_count)
      ∧ ((doBatch sampleBatchEnv [sampleFresh, sampleOther]).checkpoint.getD []).all
        (fun r => jsTruthyNum r.contributor_count)) :=
  ⟨by decide,
   invalid_records_absent_downstream sampleBatchEnv [sampleFresh, sampleOther] (by decide)⟩
